import Mathlib

/-
Shallow embedding of the rexplorer search-orchestration core.

The embedded code is `BaseRepoSearcher.Search` (the template method driving
pagination) and `BaseRepoSearcher.fetchWithRetries` (the retrying fetcher),
together with `GitCodeSearcher.buildSearchURL`.  Adapter primitives
(`buildSearchURL`, `parseSearchResponse`) and the HTTP transport are the
collaborators of the orchestrator, so they appear as explicit oracle parameters;
the orchestrator itself is translated statement by statement from the source.
Record contents are never inspected by the core, so records stay an abstract
type parameter `Rec`; likewise response bodies stay an abstract `Body`.
Durations are modelled in nanoseconds as `Nat` (the Go `time.Duration` holds an
int64 nanosecond count; the values reachable at the configured defaults are
far below 2^63, so unbounded arithmetic is exact).
-/

/-- Aggregate result of one search run; mirrors `SearchResult` in the source
(`Source`, `Query`, `TotalCount`, `Items`). -/
structure SearchResult (Rec : Type) where
  source : String
  query : String
  totalCount : Int
  items : List Rec
  deriving Repr, DecidableEq

/-- Outcome of one HTTP attempt inside `fetchWithRetries`: the request build
can fail, the transport can fail, or a response with a status code and a
drained body text arrives (a 200 response additionally carries the open body
stream handed to the caller). -/
inductive FetchAttempt (Body : Type) where
  | buildReqError (msg : String)
  | transportError (msg : String)
  | httpResponse (status : Nat) (bodyText : String) (body : Body)
  deriving Repr, DecidableEq

/-- Observable outcome of `fetchWithRetries`: the returned value, the list of
backoff sleeps actually performed (in order, in nanoseconds), and how many
loop iterations (attempts) were executed. -/
structure FetchOut (Body : Type) where
  result : Except String Body
  sleeps : List Nat
  attemptsUsed : Nat

/-- The error message the Go code records for a failed attempt
(`lastErr` in the source). -/
def attemptErrMsg {Body : Type} : FetchAttempt Body → String
  | .buildReqError m => "failed to create request: " ++ m
  | .transportError m => "request failed: " ++ m
  | .httpResponse st t _ => "api request failed with status " ++ toString st ++ ": " ++ t

/-- An attempt outcome the retry loop reacts to by sleeping and retrying:
a transport failure, or a response whose status is neither 200 (success)
nor 401/403/404 (fatal). -/
def isRetryable {Body : Type} : FetchAttempt Body → Bool
  | .buildReqError _ => false
  | .transportError _ => true
  | .httpResponse st _ _ => decide (st ≠ 200 ∧ st ≠ 401 ∧ st ≠ 403 ∧ st ≠ 404)

/-- The retry loop of `fetchWithRetries`, translated from the source.
`attempts i` is the outcome of the `i`-th HTTP attempt (request build plus
`HTTPClient.Do`); `rem` is the number of loop iterations left
(`maxRetries - i`), `delay` the current backoff delay, `lastErr` the last
recorded error.  On a retryable outcome the code sleeps `delay`, doubles it
and continues; 200 returns the body; 401/403/404 return the recorded error
immediately; a request-build failure returns immediately. -/
def fetchGo {Body : Type} (attempts : Nat → FetchAttempt Body) (maxRetries : Nat) :
    Nat → Nat → Nat → String → List Nat → FetchOut Body
  | 0, i, _, lastErr, slept =>
      ⟨Except.error ("failed to fetch URL after " ++ toString maxRetries ++ " attempts: " ++ lastErr),
        slept, i⟩
  | rem + 1, i, delay, _, slept =>
      match attempts i with
      | .buildReqError m => ⟨Except.error ("failed to create request: " ++ m), slept, i + 1⟩
      | .transportError m =>
          fetchGo attempts maxRetries rem (i + 1) (delay * 2)
            ("request failed: " ++ m) (slept ++ [delay])
      | .httpResponse st t b =>
          if st = 200 then ⟨Except.ok b, slept, i + 1⟩
          else if st = 401 ∨ st = 403 ∨ st = 404 then
            ⟨Except.error ("api request failed with status " ++ toString st ++ ": " ++ t),
              slept, i + 1⟩
          else
            fetchGo attempts maxRetries rem (i + 1) (delay * 2)
              ("api request failed with status " ++ toString st ++ ": " ++ t) (slept ++ [delay])

/-- `BaseRepoSearcher.fetchWithRetries`: run the retry loop from attempt 0
with the configured initial delay and an empty error. -/
def fetchWithRetries {Body : Type} (attempts : Nat → FetchAttempt Body)
    (maxRetries retryDelay : Nat) : FetchOut Body :=
  fetchGo attempts maxRetries maxRetries 0 retryDelay "" []

/-- `MaxRetries` as set by `NewBaseRepoSearcher`. -/
def defaultMaxRetries : Nat := 3

/-- `RetryDelay` as set by `NewBaseRepoSearcher` (1 second, in nanoseconds). -/
def defaultRetryDelay : Nat := 1000000000

/-- The two adapter primitives `Search` calls directly (the third,
`buildSearchRequest`, is consumed inside the fetcher and is part of the
fetch oracle).  Mirrors the `RepoSearcher` interface of the source. -/
structure RepoSearcher (Body Rec : Type) where
  buildSearchURL : String → Int → Int → Except String String
  parseSearchResponse : Body → Except String (List Rec × Int × Bool)

/-- Observable outcome of `Search`: the returned value and the pages for
which a fetch request was actually issued, in order. -/
structure SearchOut (Rec : Type) where
  result : Except String (SearchResult Rec)
  fetchedPages : List Int

/-- The fixed page size (`const perPage = 50` in `Search`). -/
def perPage : Int := 50

/-- The page loop of `Search`, translated from the source.  `fetch url` is
the outcome of `fetchWithRetries` for that URL (`Except.ok none` models the
defensively-checked case of a nil body with a nil error, which the real
fetcher never produces); `fuel` counts the remaining iterations
(`maxPages - page + 1`), `allRepos` and `totalCount` are the accumulator
variables, `fetched` the trace of issued page requests. -/
def searchGo {Body Rec : Type} (impl : RepoSearcher Body Rec)
    (fetch : String → Except String (Option Body)) (source query : String) :
    Nat → Int → List Rec → Int → List Int → SearchOut Rec
  | 0, _, allRepos, totalCount, fetched =>
      ⟨Except.ok ⟨source, query, totalCount, allRepos⟩, fetched⟩
  | fuel + 1, page, allRepos, totalCount, fetched =>
      match impl.buildSearchURL query page perPage with
      | Except.error e =>
          ⟨Except.error ("failed to build URL for page " ++ toString page ++ ": " ++ e), fetched⟩
      | Except.ok url =>
          match fetch url with
          | Except.error e =>
              if page = 1 then
                ⟨Except.error ("failed to fetch first page: " ++ e), fetched ++ [page]⟩
              else
                ⟨Except.ok ⟨source, query, totalCount, allRepos⟩, fetched ++ [page]⟩
          | Except.ok none =>
              searchGo impl fetch source query fuel (page + 1) allRepos totalCount (fetched ++ [page])
          | Except.ok (some body) =>
              match impl.parseSearchResponse body with
              | Except.error _ =>
                  ⟨Except.ok ⟨source, query, totalCount, allRepos⟩, fetched ++ [page]⟩
              | Except.ok (repos, tc, hasMore) =>
                  if hasMore = false ∨ repos.length = 0 then
                    ⟨Except.ok ⟨source, query, if page = 1 then tc else totalCount,
                        allRepos ++ repos⟩, fetched ++ [page]⟩
                  else
                    searchGo impl fetch source query fuel (page + 1) (allRepos ++ repos)
                      (if page = 1 then tc else totalCount) (fetched ++ [page])

/-- `BaseRepoSearcher.Search`: validate the arguments, then run the page
loop from page 1 with empty accumulators. -/
def Search {Body Rec : Type} (impl : RepoSearcher Body Rec)
    (fetch : String → Except String (Option Body)) (source query : String)
    (maxPages : Int) : SearchOut Rec :=
  if query = "" then ⟨Except.error "query cannot be empty", []⟩
  else if maxPages ≤ 0 then ⟨Except.error "maxPages must be greater than 0", []⟩
  else searchGo impl fetch source query maxPages.toNat 1 [] 0 []

/-- Uppercase hexadecimal digits, used by percent-encoding. -/
def hexUpperDigits : List Char :=
  ['0', '1', '2', '3', '4', '5', '6', '7', '8', '9', 'A', 'B', 'C', 'D', 'E', 'F']

/-- Bytes that the Go package `net/url` leaves unescaped in a query component:
ASCII letters, digits, and `-` `_` `.` `~`. -/
def isUnreservedQueryByte (b : Nat) : Bool :=
  (65 ≤ b && b ≤ 90) || (97 ≤ b && b ≤ 122) || (48 ≤ b && b ≤ 57) ||
    b == 45 || b == 95 || b == 46 || b == 126

/-- Percent-encoding of one byte in a query component, following
`net/url.QueryEscape`: unreserved bytes stand for themselves, a space
becomes `+`, every other byte becomes `%XX` with uppercase hex. -/
def escapeQueryByte (b : Nat) : String :=
  if isUnreservedQueryByte b then String.singleton (Char.ofNat b)
  else if b = 32 then "+"
  else "%" ++ String.singleton (hexUpperDigits.getD (b / 16) '0')
    ++ String.singleton (hexUpperDigits.getD (b % 16) '0')

/-- UTF-8 byte sequence of a code point (Go strings are UTF-8, and
`net/url` escapes byte-wise). -/
def utf8Bytes (n : Nat) : List Nat :=
  if n < 128 then [n]
  else if n < 2048 then [192 + n / 64, 128 + n % 64]
  else if n < 65536 then [224 + n / 4096, 128 + n / 64 % 64, 128 + n % 64]
  else [240 + n / 262144, 128 + n / 4096 % 64, 128 + n / 64 % 64, 128 + n % 64]

/-- The Go function `net/url.QueryEscape`. -/
def queryEscape (s : String) : String :=
  String.join (s.data.map (fun c => String.join ((utf8Bytes c.toNat).map escapeQueryByte)))

/-- `BaseURL` as set by `NewGitCodeSearcher`. -/
def gitCodeBaseURL : String := "https://api.gitcode.com/api/v5"

/-- `GitCodeSearcher.buildSearchURL`, translated from the source.  `env`
models the process environment (`os.Getenv`, returning `""` for an unset
variable).  The base URL is a well-formed constant, so `url.Parse` succeeds
and the function always returns `ok`; `url.Values.Encode` emits the
parameters sorted by key (`language` < `page` < `per_page` < `q`), with the
`language` parameter present exactly when `GITCODE_LANG` is non-empty. -/
def gitCodeBuildSearchURL (env : String → String) (query : String)
    (page perPage : Int) : Except String String :=
  Except.ok (gitCodeBaseURL ++ "/search/repositories?" ++
    (if env "GITCODE_LANG" = "" then "" else "language=" ++ queryEscape (env "GITCODE_LANG") ++ "&") ++
    "page=" ++ queryEscape (toString page) ++
    "&per_page=" ++ queryEscape (toString perPage) ++
    "&q=" ++ queryEscape query)

/-- An environment with every variable unset (`os.Getenv` returns `""`). -/
def emptyEnv : String → String := fun _ => ""

/-- An environment where `GITCODE_LANG` is set to `go`. -/
def langGoEnv : String → String := fun v => if v = "GITCODE_LANG" then "go" else ""

/-- An environment where only an unrelated variable is set. -/
def otherVarEnv : String → String := fun v => if v = "SOME_OTHER_VAR" then "x" else ""

/-- The trace of issued page requests only ever grows: the loop returns its
incoming trace with some suffix appended. -/
theorem searchGo_trace_extends {Body Rec : Type} (impl : RepoSearcher Body Rec)
    (fetch : String → Except String (Option Body)) (source query : String) :
    ∀ (fuel : Nat) (page : Int) (acc : List Rec) (tc : Int) (f : List Int),
      ∃ rest, (searchGo impl fetch source query fuel page acc tc f).fetchedPages = f ++ rest := by
  intro fuel
  induction fuel with
  | zero => intro page acc tc f; exact ⟨[], by simp [searchGo]⟩
  | succ n ih =>
    intro page acc tc f
    cases hb : impl.buildSearchURL query page perPage with
    | error e => exact ⟨[], by simp [searchGo, hb]⟩
    | ok url =>
      cases hf : fetch url with
      | error e => exact ⟨[page], by simp only [searchGo, hb, hf]; split <;> rfl⟩
      | ok ob =>
        cases ob with
        | none =>
          obtain ⟨rest, hr⟩ := ih (page + 1) acc tc (f ++ [page])
          exact ⟨[page] ++ rest, by simp only [searchGo, hb, hf, hr, List.append_assoc]⟩
        | some body =>
          cases hpr : impl.parseSearchResponse body with
          | error e => exact ⟨[page], by simp [searchGo, hb, hf, hpr]⟩
          | ok t =>
            obtain ⟨repos, tc1, hasMore⟩ := t
            by_cases hstop : hasMore = false ∨ repos.length = 0
            · exact ⟨[page], by simp [searchGo, hb, hf, hpr, if_pos hstop]⟩
            · obtain ⟨rest, hr⟩ := ih (page + 1) (acc ++ repos)
                (if page = 1 then tc1 else tc) (f ++ [page])
              exact ⟨[page] ++ rest,
                by simp only [searchGo, hb, hf, hpr, if_neg hstop, hr, List.append_assoc]⟩

/-- Each loop iteration issues at most one page request, so the trace grows
by at most `fuel` entries. -/
theorem searchGo_trace_len {Body Rec : Type} (impl : RepoSearcher Body Rec)
    (fetch : String → Except String (Option Body)) (source query : String) :
    ∀ (fuel : Nat) (page : Int) (acc : List Rec) (tc : Int) (f : List Int),
      (searchGo impl fetch source query fuel page acc tc f).fetchedPages.length
        ≤ f.length + fuel := by
  intro fuel
  induction fuel with
  | zero => intro page acc tc f; simp [searchGo]
  | succ n ih =>
    intro page acc tc f
    cases hb : impl.buildSearchURL query page perPage with
    | error e => simp [searchGo, hb]
    | ok url =>
      cases hf : fetch url with
      | error e =>
        simp only [searchGo, hb, hf]
        split <;> simp
      | ok ob =>
        cases ob with
        | none =>
          have h := ih (page + 1) acc tc (f ++ [page])
          simp only [searchGo, hb, hf]
          simp only [List.length_append, List.length_cons, List.length_nil] at h ⊢
          omega
        | some body =>
          cases hpr : impl.parseSearchResponse body with
          | error e => simp [searchGo, hb, hf, hpr]
          | ok t =>
            obtain ⟨repos, tc1, hasMore⟩ := t
            by_cases hstop : hasMore = false ∨ repos.length = 0
            · simp [searchGo, hb, hf, hpr, if_pos hstop]
            · have h := ih (page + 1) (acc ++ repos) (if page = 1 then tc1 else tc) (f ++ [page])
              simp only [searchGo, hb, hf, hpr, if_neg hstop]
              simp only [List.length_append, List.length_cons, List.length_nil] at h ⊢
              omega

/-- From page 2 on, the loop never reassigns `totalCount`: any successful
result carries exactly the value passed in. -/
theorem searchGo_tc_of_ok {Body Rec : Type} (impl : RepoSearcher Body Rec)
    (fetch : String → Except String (Option Body)) (source query : String) :
    ∀ (fuel : Nat) (page : Int) (acc : List Rec) (tc : Int) (f : List Int)
      (res : SearchResult Rec), 2 ≤ page →
      (searchGo impl fetch source query fuel page acc tc f).result = Except.ok res →
      res.totalCount = tc := by
  intro fuel
  induction fuel with
  | zero =>
    intro page acc tc f res hp hres
    simp only [searchGo] at hres
    cases hres
    rfl
  | succ n ih =>
    intro page acc tc f res hp hres
    have hp1 : ¬ page = 1 := by omega
    cases hb : impl.buildSearchURL query page perPage with
    | error e => simp only [searchGo, hb] at hres; cases hres
    | ok url =>
      cases hf : fetch url with
      | error e =>
        simp only [searchGo, hb, hf, if_neg hp1] at hres
        cases hres
        rfl
      | ok ob =>
        cases ob with
        | none =>
          simp only [searchGo, hb, hf] at hres
          exact ih (page + 1) acc tc (f ++ [page]) res (by omega) hres
        | some body =>
          cases hpr : impl.parseSearchResponse body with
          | error e =>
            simp only [searchGo, hb, hf, hpr] at hres
            cases hres
            rfl
          | ok t =>
            obtain ⟨repos, tc1, hasMore⟩ := t
            by_cases hstop : hasMore = false ∨ repos.length = 0
            · simp only [searchGo, hb, hf, hpr, if_pos hstop] at hres
              cases hres
              simp [hp1]
            · simp only [searchGo, hb, hf, hpr, if_neg hstop] at hres
              have h := ih (page + 1) (acc ++ repos) (if page = 1 then tc1 else tc)
                (f ++ [page]) res (by omega) hres
              rwa [if_neg hp1] at h

/-- When the URL for the current page builds successfully, a fetch request
for that page is always issued. -/
theorem searchGo_mem_first {Body Rec : Type} (impl : RepoSearcher Body Rec)
    (fetch : String → Except String (Option Body)) (source query : String)
    (n : Nat) (page : Int) (acc : List Rec) (tc : Int) (f : List Int) (url : String)
    (hb : impl.buildSearchURL query page perPage = Except.ok url) :
    page ∈ (searchGo impl fetch source query (n + 1) page acc tc f).fetchedPages := by
  cases hf : fetch url with
  | error e =>
    simp only [searchGo, hb, hf]
    split <;> simp
  | ok ob =>
    cases ob with
    | none =>
      obtain ⟨rest, hr⟩ := searchGo_trace_extends impl fetch source query n (page + 1)
        acc tc (f ++ [page])
      simp only [searchGo, hb, hf, hr]
      simp
    | some b =>
      cases hpr : impl.parseSearchResponse b with
      | error e => simp [searchGo, hb, hf, hpr]
      | ok t =>
        obtain ⟨repos, tc1, hasMore⟩ := t
        by_cases hstop : hasMore = false ∨ repos.length = 0
        · simp [searchGo, hb, hf, hpr, if_pos hstop]
        · obtain ⟨rest, hr⟩ := searchGo_trace_extends impl fetch source query n (page + 1)
            (acc ++ repos) (if page = 1 then tc1 else tc) (f ++ [page])
          simp only [searchGo, hb, hf, hpr, if_neg hstop, hr]
          simp

/-- The retry loop never executes more attempts than it has iterations
left. -/
theorem fetchGo_attemptsUsed_le {Body : Type} (attempts : Nat → FetchAttempt Body)
    (maxRetries : Nat) :
    ∀ (rem i delay : Nat) (lastErr : String) (slept : List Nat),
      (fetchGo attempts maxRetries rem i delay lastErr slept).attemptsUsed ≤ i + rem := by
  intro rem
  induction rem with
  | zero => intro i delay lastErr slept; simp [fetchGo]
  | succ n ih =>
    intro i delay lastErr slept
    cases ha : attempts i with
    | buildReqError m => simp [fetchGo, ha]
    | transportError m =>
      have h := ih (i + 1) (delay * 2) ("request failed: " ++ m) (slept ++ [delay])
      simp only [fetchGo, ha]
      omega
    | httpResponse st t b =>
      by_cases h200 : st = 200
      · simp [fetchGo, ha, h200]
      · by_cases hfatal : st = 401 ∨ st = 403 ∨ st = 404
        · simp only [fetchGo, ha, if_neg h200, if_pos hfatal]
          omega
        · have h := ih (i + 1) (delay * 2)
            ("api request failed with status " ++ toString st ++ ": " ++ t) (slept ++ [delay])
          simp only [fetchGo, ha, if_neg h200, if_neg hfatal]
          omega

/-- On any retryable attempt outcome the loop records the attempt error,
sleeps the current delay, doubles it, and moves to the next attempt. -/
theorem fetchGo_retry_step {Body : Type} (attempts : Nat → FetchAttempt Body)
    (maxRetries rem i delay : Nat) (lastErr : String) (slept : List Nat)
    (h : isRetryable (attempts i) = true) :
    fetchGo attempts maxRetries (rem + 1) i delay lastErr slept
      = fetchGo attempts maxRetries rem (i + 1) (delay * 2)
          (attemptErrMsg (attempts i)) (slept ++ [delay]) := by
  cases ha : attempts i with
  | buildReqError m => rw [ha] at h; simp [isRetryable] at h
  | transportError m => simp [fetchGo, ha, attemptErrMsg]
  | httpResponse st t b =>
    rw [ha] at h
    simp only [isRetryable, decide_eq_true_eq] at h
    obtain ⟨h1, h2, h3, h4⟩ := h
    have hor : ¬ (st = 401 ∨ st = 403 ∨ st = 404) := by tauto
    simp [fetchGo, ha, attemptErrMsg, if_neg h1, if_neg hor]

/-- Prepending the starting delay to a doubled geometric delay sequence
gives the geometric sequence one step longer. -/
theorem delayChain (d : Nat) : ∀ n : Nat,
    [d] ++ (List.range n).map (fun k => d * 2 * 2 ^ k)
      = (List.range (n + 1)).map (fun k => d * 2 ^ k) := by
  intro n
  have hfun : (fun k : Nat => d * 2 * 2 ^ k) = (fun k : Nat => d * 2 ^ (k + 1)) := by
    funext k; ring
  rw [hfun, List.range_succ_eq_map, List.map_cons, List.map_map]
  simp [Function.comp]

/-- When every remaining attempt is retryable, the loop exhausts all of
them, sleeping the exact doubling sequence of delays, and fails wrapping
the error of the last attempt with the configured attempt count. -/
theorem fetchGo_exhausts {Body : Type} (attempts : Nat → FetchAttempt Body)
    (maxRetries : Nat) :
    ∀ (rem i delay : Nat) (lastErr : String) (slept : List Nat),
      1 ≤ rem → (∀ j, j < rem → isRetryable (attempts (i + j)) = true) →
      fetchGo attempts maxRetries rem i delay lastErr slept =
        ⟨Except.error ("failed to fetch URL after " ++ toString maxRetries ++ " attempts: "
            ++ attemptErrMsg (attempts (i + rem - 1))),
          slept ++ (List.range rem).map (fun k => delay * 2 ^ k), i + rem⟩ := by
  intro rem
  induction rem with
  | zero => intro i delay lastErr slept h; omega
  | succ n ih =>
    intro i delay lastErr slept _ hall
    have h0 : isRetryable (attempts i) = true := by
      have := hall 0 (by omega)
      simpa using this
    rw [fetchGo_retry_step attempts maxRetries n i delay lastErr slept h0]
    cases n with
    | zero => simp [fetchGo, List.range_succ]
    | succ m =>
      have hall2 : ∀ j, j < m + 1 → isRetryable (attempts (i + 1 + j)) = true := by
        intro j hj
        have := hall (j + 1) (by omega)
        have harith : i + (j + 1) = i + 1 + j := by omega
        rwa [harith] at this
      rw [ih (i + 1) (delay * 2) (attemptErrMsg (attempts i)) (slept ++ [delay]) (by omega) hall2]
      have hidx : i + 1 + (m + 1) - 1 = i + (m + 1 + 1) - 1 := by omega
      have hused : i + 1 + (m + 1) = i + (m + 1 + 1) := by omega
      rw [hidx, hused, List.append_assoc, delayChain]

/-- Claim C1: for every non-empty query and maxPages at least 1, a fetch
failure on page 1 makes `Search` return a nil result and a non-nil error,
while a fetch failure on any page p at least 2 stops the loop and returns
the records accumulated so far as a successful result with a nil error. -/
theorem search_fetch_failure_page1_vs_later {Body Rec : Type} (impl : RepoSearcher Body Rec)
    (fetch : String → Except String (Option Body)) (source query : String) (maxPages : Int)
    (url1 e1 : String) (n : Nat) (p : Int) (urlp ep : String)
    (acc : List Rec) (tc : Int) (f : List Int)
    (hq : query ≠ "") (hmp : 1 ≤ maxPages)
    (hb1 : impl.buildSearchURL query 1 perPage = Except.ok url1)
    (hf1 : fetch url1 = Except.error e1)
    (hp2 : 2 ≤ p)
    (hbp : impl.buildSearchURL query p perPage = Except.ok urlp)
    (hfp : fetch urlp = Except.error ep) :
    Search impl fetch source query maxPages
      = ⟨Except.error ("failed to fetch first page: " ++ e1), [1]⟩
    ∧ searchGo impl fetch source query (n + 1) p acc tc f
      = ⟨Except.ok ⟨source, query, tc, acc⟩, f ++ [p]⟩ := by
  constructor
  · unfold Search
    rw [if_neg hq, if_neg (by omega)]
    obtain ⟨m, hm⟩ : ∃ m, maxPages.toNat = m + 1 := ⟨maxPages.toNat - 1, by omega⟩
    rw [hm]
    simp [searchGo, hb1, hf1]
  · have hp1 : ¬ p = 1 := by omega
    simp [searchGo, hbp, hfp, if_neg hp1]

/-- Claim C1 witness: a concrete adapter whose fetches always fail; page 1
fails the run, while at page 2 the loop keeps the accumulated record. -/
theorem search_fetch_failure_page1_vs_later_witness :
    Search (⟨fun _ p _ => Except.ok ("u" ++ toString p), fun _ => Except.ok ([()], 5, true)⟩ :
        RepoSearcher Unit Unit)
      (fun _ => Except.error "down") "S" "raft" 3
      = ⟨Except.error ("failed to fetch first page: " ++ "down"), [1]⟩
    ∧ searchGo (⟨fun _ p _ => Except.ok ("u" ++ toString p), fun _ => Except.ok ([()], 5, true)⟩ :
        RepoSearcher Unit Unit)
      (fun _ => Except.error "down") "S" "raft" (0 + 1) 2 [()] 9 [1]
      = ⟨Except.ok ⟨"S", "raft", 9, [()]⟩, [1] ++ [2]⟩ :=
  search_fetch_failure_page1_vs_later _ _ "S" "raft" 3 ("u" ++ toString (1 : Int)) "down" 0 2
    ("u" ++ toString (2 : Int)) "down" [()] 9 [1]
    (by decide) (by decide) rfl rfl (by decide) rfl rfl

/-- Claim C2 counterexample: a 204 response (a 2xx status) is not treated
as success; with every attempt answering 204, `Search`-level fetching
exhausts its three attempts and fails instead of returning the body. -/
theorem fetch_2xx_not_success_cex :
    (fetchWithRetries (fun _ => FetchAttempt.httpResponse 204 "" ()) defaultMaxRetries
        defaultRetryDelay).result
      = Except.error "failed to fetch URL after 3 attempts: api request failed with status 204: "
    ∧ (fetchWithRetries (fun _ => FetchAttempt.httpResponse 204 "" ()) defaultMaxRetries
        defaultRetryDelay).result ≠ Except.ok () := by
  refine ⟨rfl, ?_⟩
  intro h
  rw [show (fetchWithRetries (fun _ => FetchAttempt.httpResponse 204 "" ()) defaultMaxRetries
      defaultRetryDelay).result
      = Except.error "failed to fetch URL after 3 attempts: api request failed with status 204: "
    from rfl] at h
  exact Except.noConfusion h

/-- Claim C2 (amended): the retry loop classifies each attempt into exactly
three classes, keyed on status 200 rather than the whole 2xx range: a 200
response succeeds and returns the body; 401, 403 and 404 fail immediately
without consuming further attempts; every other status (including other
2xx codes) and every transport failure is retried after a backoff sleep. -/
theorem fetch_status_classification {Body : Type} (attempts : Nat → FetchAttempt Body)
    (maxRetries rem i delay : Nat) (lastErr : String) (slept : List Nat) :
    (∀ (t : String) (b : Body), attempts i = FetchAttempt.httpResponse 200 t b →
      fetchGo attempts maxRetries (rem + 1) i delay lastErr slept = ⟨Except.ok b, slept, i + 1⟩)
    ∧ (∀ (st : Nat) (t : String) (b : Body), (st = 401 ∨ st = 403 ∨ st = 404) →
      attempts i = FetchAttempt.httpResponse st t b →
      fetchGo attempts maxRetries (rem + 1) i delay lastErr slept
        = ⟨Except.error ("api request failed with status " ++ toString st ++ ": " ++ t),
            slept, i + 1⟩)
    ∧ (∀ m : String, attempts i = FetchAttempt.transportError m →
      fetchGo attempts maxRetries (rem + 1) i delay lastErr slept
        = fetchGo attempts maxRetries rem (i + 1) (delay * 2)
            ("request failed: " ++ m) (slept ++ [delay]))
    ∧ (∀ (st : Nat) (t : String) (b : Body), st ≠ 200 → ¬ (st = 401 ∨ st = 403 ∨ st = 404) →
      attempts i = FetchAttempt.httpResponse st t b →
      fetchGo attempts maxRetries (rem + 1) i delay lastErr slept
        = fetchGo attempts maxRetries rem (i + 1) (delay * 2)
            ("api request failed with status " ++ toString st ++ ": " ++ t)
            (slept ++ [delay])) := by
  refine ⟨?_, ?_, ?_, ?_⟩
  · intro t b ha
    simp [fetchGo, ha]
  · intro st t b hor ha
    have h200 : ¬ st = 200 := by rcases hor with h | h | h <;> omega
    simp [fetchGo, ha, if_neg h200, if_pos hor]
  · intro m ha
    simp [fetchGo, ha]
  · intro st t b h200 hor ha
    simp [fetchGo, ha, if_neg h200, if_neg hor]

/-- Claim C2 witness: one oracle exercising all four classification cases
of the retry loop at concrete attempt indices. -/
theorem fetch_status_classification_witness :
    fetchGo (fun i => if i = 0 then FetchAttempt.transportError "t"
        else if i = 1 then FetchAttempt.httpResponse 500 "e5" ()
        else if i = 2 then FetchAttempt.httpResponse 404 "nf" ()
        else FetchAttempt.httpResponse 200 "ok" ()) 9 (5 + 1) 3 8 "x" []
      = ⟨Except.ok (), [], 3 + 1⟩
    ∧ fetchGo (fun i => if i = 0 then FetchAttempt.transportError "t"
        else if i = 1 then FetchAttempt.httpResponse 500 "e5" ()
        else if i = 2 then FetchAttempt.httpResponse 404 "nf" ()
        else FetchAttempt.httpResponse 200 "ok" ()) 9 (5 + 1) 2 8 "x" []
      = ⟨Except.error ("api request failed with status " ++ toString (404 : Nat) ++ ": " ++ "nf"),
          [], 2 + 1⟩
    ∧ fetchGo (fun i => if i = 0 then FetchAttempt.transportError "t"
        else if i = 1 then FetchAttempt.httpResponse 500 "e5" ()
        else if i = 2 then FetchAttempt.httpResponse 404 "nf" ()
        else FetchAttempt.httpResponse 200 "ok" ()) 9 (5 + 1) 0 8 "x" []
      = fetchGo (fun i => if i = 0 then FetchAttempt.transportError "t"
        else if i = 1 then FetchAttempt.httpResponse 500 "e5" ()
        else if i = 2 then FetchAttempt.httpResponse 404 "nf" ()
        else FetchAttempt.httpResponse 200 "ok" ()) 9 5 (0 + 1) (8 * 2)
          ("request failed: " ++ "t") ([] ++ [8])
    ∧ fetchGo (fun i => if i = 0 then FetchAttempt.transportError "t"
        else if i = 1 then FetchAttempt.httpResponse 500 "e5" ()
        else if i = 2 then FetchAttempt.httpResponse 404 "nf" ()
        else FetchAttempt.httpResponse 200 "ok" ()) 9 (5 + 1) 1 8 "x" []
      = fetchGo (fun i => if i = 0 then FetchAttempt.transportError "t"
        else if i = 1 then FetchAttempt.httpResponse 500 "e5" ()
        else if i = 2 then FetchAttempt.httpResponse 404 "nf" ()
        else FetchAttempt.httpResponse 200 "ok" ()) 9 5 (1 + 1) (8 * 2)
          ("api request failed with status " ++ toString (500 : Nat) ++ ": " ++ "e5")
          ([] ++ [8]) :=
  ⟨(fetch_status_classification _ 9 5 3 8 "x" []).1 "ok" () rfl,
   (fetch_status_classification _ 9 5 2 8 "x" []).2.1 404 "nf" ()
      (Or.inr (Or.inr rfl)) rfl,
   (fetch_status_classification _ 9 5 0 8 "x" []).2.2.1 "t" rfl,
   (fetch_status_classification _ 9 5 1 8 "x" []).2.2.2 500 "e5" ()
      (by decide) (by decide) rfl⟩

/-- Claim C3 counterexample: a URL build error on page 2 makes `Search`
fail the whole run with an error, instead of returning the page-1 records
as a successful partial result as the claim states. -/
theorem search_build_error_page2_cex :
    (Search (⟨fun _ p _ => if p = 1 then Except.ok "u1" else Except.error "boom",
        fun _ => Except.ok ([()], 7, true)⟩ : RepoSearcher Unit Unit)
      (fun _ => Except.ok (some ())) "GitCode" "raft" 3).result
      = Except.error "failed to build URL for page 2: boom"
    ∧ (Search (⟨fun _ p _ => if p = 1 then Except.ok "u1" else Except.error "boom",
        fun _ => Except.ok ([()], 7, true)⟩ : RepoSearcher Unit Unit)
      (fun _ => Except.ok (some ())) "GitCode" "raft" 3).result
      ≠ Except.ok ⟨"GitCode", "raft", 7, [()]⟩ := by
  refine ⟨rfl, ?_⟩
  intro h
  rw [show (Search (⟨fun _ p _ => if p = 1 then Except.ok "u1" else Except.error "boom",
      fun _ => Except.ok ([()], 7, true)⟩ : RepoSearcher Unit Unit)
      (fun _ => Except.ok (some ())) "GitCode" "raft" 3).result
      = Except.error "failed to build URL for page 2: boom" from rfl] at h
  exact Except.noConfusion h

/-- Claim C3 (amended): a URL build error is fatal on every page: whenever
`buildSearchURL` returns an error for the current page, `Search` returns a
nil result and a non-nil error naming that page, with no partial result. -/
theorem search_build_error_fatal_all_pages {Body Rec : Type} (impl : RepoSearcher Body Rec)
    (fetch : String → Except String (Option Body)) (source query : String) (maxPages : Int)
    (hq : query ≠ "") (hmp : 1 ≤ maxPages) :
    (∀ e, impl.buildSearchURL query 1 perPage = Except.error e →
      Search impl fetch source query maxPages
        = ⟨Except.error ("failed to build URL for page " ++ toString (1 : Int) ++ ": " ++ e), []⟩)
    ∧ (∀ (n : Nat) (p : Int) (acc : List Rec) (tc : Int) (f : List Int) (e : String),
        impl.buildSearchURL query p perPage = Except.error e →
        searchGo impl fetch source query (n + 1) p acc tc f
          = ⟨Except.error ("failed to build URL for page " ++ toString p ++ ": " ++ e), f⟩) := by
  constructor
  · intro e hbe
    unfold Search
    rw [if_neg hq, if_neg (by omega)]
    obtain ⟨m, hm⟩ : ∃ m, maxPages.toNat = m + 1 := ⟨maxPages.toNat - 1, by omega⟩
    rw [hm]
    simp [searchGo, hbe]
  · intro n p acc tc f e hbe
    simp [searchGo, hbe]

/-- Claim C3 witness: an adapter whose URL build always fails; the run
fails on page 1 and also at a later page mid-loop, discarding the records
already accumulated. -/
theorem search_build_error_fatal_all_pages_witness :
    Search (⟨fun _ _ _ => Except.error "bad config", fun _ => Except.ok ([()], 5, true)⟩ :
        RepoSearcher Unit Unit)
      (fun _ => Except.ok (some ())) "S" "raft" 3
      = ⟨Except.error ("failed to build URL for page " ++ toString (1 : Int) ++ ": "
          ++ "bad config"), []⟩
    ∧ searchGo (⟨fun _ _ _ => Except.error "bad config", fun _ => Except.ok ([()], 5, true)⟩ :
        RepoSearcher Unit Unit)
      (fun _ => Except.ok (some ())) "S" "raft" (2 + 1) 4 [()] 9 [1, 2, 3]
      = ⟨Except.error ("failed to build URL for page " ++ toString (4 : Int) ++ ": "
          ++ "bad config"), [1, 2, 3]⟩ :=
  ⟨(search_build_error_fatal_all_pages _ _ "S" "raft" 3 (by decide) (by decide)).1
      "bad config" rfl,
   (search_build_error_fatal_all_pages _ _ "S" "raft" 3 (by decide) (by decide)).2
      2 4 [()] 9 [1, 2, 3] "bad config" rfl⟩

/-- Claim C4: a parse error on any page (page 1 included) stops the loop
without retrying and returns the records accumulated from earlier pages,
possibly none, as a successful result with a nil error. -/
theorem search_parse_error_keeps_records {Body Rec : Type} (impl : RepoSearcher Body Rec)
    (fetch : String → Except String (Option Body)) (source query : String) (maxPages : Int)
    (hq : query ≠ "") (hmp : 1 ≤ maxPages) :
    (∀ (n : Nat) (p : Int) (acc : List Rec) (tc : Int) (f : List Int) (url : String)
        (b : Body) (e : String),
        impl.buildSearchURL query p perPage = Except.ok url →
        fetch url = Except.ok (some b) →
        impl.parseSearchResponse b = Except.error e →
        searchGo impl fetch source query (n + 1) p acc tc f
          = ⟨Except.ok ⟨source, query, tc, acc⟩, f ++ [p]⟩)
    ∧ (∀ (url : String) (b : Body) (e : String),
        impl.buildSearchURL query 1 perPage = Except.ok url →
        fetch url = Except.ok (some b) →
        impl.parseSearchResponse b = Except.error e →
        Search impl fetch source query maxPages = ⟨Except.ok ⟨source, query, 0, []⟩, [1]⟩) := by
  constructor
  · intro n p acc tc f url b e hb hf hpe
    simp [searchGo, hb, hf, hpe]
  · intro url b e hb hf hpe
    unfold Search
    rw [if_neg hq, if_neg (by omega)]
    obtain ⟨m, hm⟩ : ∃ m, maxPages.toNat = m + 1 := ⟨maxPages.toNat - 1, by omega⟩
    rw [hm]
    simp [searchGo, hb, hf, hpe]

/-- Claim C4 witness: an adapter whose parse always fails; a page-1 parse
failure still yields a successful empty result. -/
theorem search_parse_error_keeps_records_witness :
    searchGo (⟨fun _ _ _ => Except.ok "u", fun _ => Except.error "bad json"⟩ :
        RepoSearcher Unit Unit)
      (fun _ => Except.ok (some ())) "S" "raft" (1 + 1) 1 [] 0 []
      = ⟨Except.ok ⟨"S", "raft", 0, []⟩, [] ++ [1]⟩
    ∧ Search (⟨fun _ _ _ => Except.ok "u", fun _ => Except.error "bad json"⟩ :
        RepoSearcher Unit Unit)
      (fun _ => Except.ok (some ())) "S" "raft" 2 = ⟨Except.ok ⟨"S", "raft", 0, []⟩, [1]⟩ :=
  ⟨(search_parse_error_keeps_records _ _ "S" "raft" 2 (by decide) (by decide)).1
      1 1 [] 0 [] "u" () "bad json" rfl rfl rfl,
   (search_parse_error_keeps_records _ _ "S" "raft" 2 (by decide) (by decide)).2
      "u" () "bad json" rfl rfl rfl⟩

/-- Claim C5: `Search` issues at most maxPages page requests; absent a
page-1 fatal error it issues at least one (page 1 itself); and when the
parse of page k reports hasMore false or zero records, the loop stops with
page k as its last request, so no request for page k+1 is issued. -/
theorem search_page_request_bounds {Body Rec : Type} (impl : RepoSearcher Body Rec)
    (fetch : String → Except String (Option Body)) (source query : String) (maxPages : Int)
    (url1 : String)
    (hq : query ≠ "") (hmp : 1 ≤ maxPages)
    (hb1 : impl.buildSearchURL query 1 perPage = Except.ok url1) :
    (Search impl fetch source query maxPages).fetchedPages.length ≤ maxPages.toNat
    ∧ (1 : Int) ∈ (Search impl fetch source query maxPages).fetchedPages
    ∧ (∀ (n : Nat) (k : Int) (acc : List Rec) (tc : Int) (f : List Int) (url : String)
        (b : Body) (repos : List Rec) (tc1 : Int) (hasMore : Bool),
        impl.buildSearchURL query k perPage = Except.ok url →
        fetch url = Except.ok (some b) →
        impl.parseSearchResponse b = Except.ok (repos, tc1, hasMore) →
        (hasMore = false ∨ repos.length = 0) →
        (searchGo impl fetch source query (n + 1) k acc tc f).fetchedPages = f ++ [k]
        ∧ (k + 1 ∉ f →
            k + 1 ∉ (searchGo impl fetch source query (n + 1) k acc tc f).fetchedPages)) := by
  refine ⟨?_, ?_, ?_⟩
  · unfold Search
    rw [if_neg hq, if_neg (by omega)]
    have h := searchGo_trace_len impl fetch source query maxPages.toNat 1 [] 0 []
    simpa using h
  · unfold Search
    rw [if_neg hq, if_neg (by omega)]
    obtain ⟨m, hm⟩ : ∃ m, maxPages.toNat = m + 1 := ⟨maxPages.toNat - 1, by omega⟩
    rw [hm]
    exact searchGo_mem_first impl fetch source query m 1 [] 0 [] url1 hb1
  · intro n k acc tc f url b repos tc1 hasMore hb hf hpr hstop
    have htr : (searchGo impl fetch source query (n + 1) k acc tc f).fetchedPages = f ++ [k] := by
      simp [searchGo, hb, hf, hpr, if_pos hstop]
    refine ⟨htr, ?_⟩
    intro hnot
    rw [htr]
    simp only [List.mem_append, List.mem_singleton]
    rintro (h | h)
    · exact hnot h
    · omega

/-- Claim C5 witness: an adapter answering one record with hasMore false;
with maxPages 5 only page 1 is requested and page 2 never is. -/
theorem search_page_request_bounds_witness :
    (Search (⟨fun _ _ _ => Except.ok "u", fun _ => Except.ok ([()], 3, false)⟩ :
        RepoSearcher Unit Unit)
      (fun _ => Except.ok (some ())) "S" "raft" 5).fetchedPages.length ≤ (5 : Int).toNat
    ∧ (1 : Int) ∈ (Search (⟨fun _ _ _ => Except.ok "u", fun _ => Except.ok ([()], 3, false)⟩ :
        RepoSearcher Unit Unit)
      (fun _ => Except.ok (some ())) "S" "raft" 5).fetchedPages
    ∧ (searchGo (⟨fun _ _ _ => Except.ok "u", fun _ => Except.ok ([()], 3, false)⟩ :
        RepoSearcher Unit Unit)
      (fun _ => Except.ok (some ())) "S" "raft" (0 + 1) 1 [] 0 []).fetchedPages = [] ++ [1]
    ∧ (1 : Int) + 1 ∉ (searchGo (⟨fun _ _ _ => Except.ok "u",
        fun _ => Except.ok ([()], 3, false)⟩ : RepoSearcher Unit Unit)
      (fun _ => Except.ok (some ())) "S" "raft" (0 + 1) 1 [] 0 []).fetchedPages := by
  have h := search_page_request_bounds
    (⟨fun _ _ _ => Except.ok "u", fun _ => Except.ok ([()], 3, false)⟩ : RepoSearcher Unit Unit)
    (fun _ => Except.ok (some ())) "S" "raft" 5 "u" (by decide) (by decide) rfl
  have h3 := h.2.2 0 1 [] 0 [] "u" () [()] 3 false rfl rfl rfl (Or.inl rfl)
  exact ⟨h.1, h.2.1, h3.1, h3.2 (by decide)⟩

/-- Claim C6: on all-retryable (transient) failures the retry loop executes
at most the configured attempt ceiling; the performed backoff delays form
the exact doubling sequence from the initial delay, so each successive
delay is at least double the previous; and after exhausting the attempts it
fails with the last observed attempt error wrapped with the attempt
count. -/
theorem fetch_retry_bounds_backoff {Body : Type} (attempts : Nat → FetchAttempt Body)
    (maxRetries retryDelay : Nat)
    (hmr : 1 ≤ maxRetries)
    (hall : ∀ j, j < maxRetries → isRetryable (attempts j) = true) :
    (∀ att2 : Nat → FetchAttempt Body,
        (fetchWithRetries att2 maxRetries retryDelay).attemptsUsed ≤ maxRetries)
    ∧ (fetchWithRetries attempts maxRetries retryDelay).sleeps
        = (List.range maxRetries).map (fun k => retryDelay * 2 ^ k)
    ∧ (∀ (j : Nat) (h1 : j < (fetchWithRetries attempts maxRetries retryDelay).sleeps.length)
        (h2 : j + 1 < (fetchWithRetries attempts maxRetries retryDelay).sleeps.length),
        2 * (fetchWithRetries attempts maxRetries retryDelay).sleeps.get ⟨j, h1⟩
          ≤ (fetchWithRetries attempts maxRetries retryDelay).sleeps.get ⟨j + 1, h2⟩)
    ∧ (fetchWithRetries attempts maxRetries retryDelay).result
        = Except.error ("failed to fetch URL after " ++ toString maxRetries ++ " attempts: "
            ++ attemptErrMsg (attempts (maxRetries - 1))) := by
  have hall0 : ∀ j, j < maxRetries → isRetryable (attempts (0 + j)) = true := by
    intro j hj
    simpa using hall j hj
  have hkey := fetchGo_exhausts attempts maxRetries maxRetries 0 retryDelay "" []
    (by omega) hall0
  have hsleeps : (fetchWithRetries attempts maxRetries retryDelay).sleeps
      = (List.range maxRetries).map (fun k => retryDelay * 2 ^ k) := by
    unfold fetchWithRetries
    rw [hkey]
    simp
  refine ⟨?_, hsleeps, ?_, ?_⟩
  · intro att2
    have h := fetchGo_attemptsUsed_le att2 maxRetries maxRetries 0 retryDelay "" []
    unfold fetchWithRetries
    omega
  · intro j h1 h2
    have e1 : (fetchWithRetries attempts maxRetries retryDelay).sleeps.get ⟨j, h1⟩
        = retryDelay * 2 ^ j := by
      simp [List.get_eq_getElem, hsleeps]
    have e2 : (fetchWithRetries attempts maxRetries retryDelay).sleeps.get ⟨j + 1, h2⟩
        = retryDelay * 2 ^ (j + 1) := by
      simp [List.get_eq_getElem, hsleeps]
    rw [e1, e2]
    have hdouble : retryDelay * 2 ^ (j + 1) = 2 * (retryDelay * 2 ^ j) := by ring
    omega
  · unfold fetchWithRetries
    rw [hkey]
    simp

/-- Claim C6 witness: with the default configuration (3 attempts, 1 second
initial delay) and a permanently failing transport, the sleeps are exactly
1 s, 2 s, 4 s and the final error wraps the attempt count and last
error. -/
theorem fetch_retry_bounds_backoff_witness :
    (fetchWithRetries ((fun _ => FetchAttempt.transportError "no route to host") :
          Nat → FetchAttempt Unit)
        defaultMaxRetries defaultRetryDelay).attemptsUsed ≤ defaultMaxRetries
    ∧ (fetchWithRetries ((fun _ => FetchAttempt.transportError "no route to host") :
          Nat → FetchAttempt Unit)
        defaultMaxRetries defaultRetryDelay).sleeps = [1000000000, 2000000000, 4000000000]
    ∧ (fetchWithRetries ((fun _ => FetchAttempt.transportError "no route to host") :
          Nat → FetchAttempt Unit)
        defaultMaxRetries defaultRetryDelay).result
      = Except.error "failed to fetch URL after 3 attempts: request failed: no route to host" := by
  have h := fetch_retry_bounds_backoff ((fun _ => FetchAttempt.transportError "no route to host") :
      Nat → FetchAttempt Unit)
    defaultMaxRetries defaultRetryDelay (by decide) (by decide)
  exact ⟨h.1 _, h.2.1.trans (by decide), h.2.2.2.trans (by rfl)⟩

/-- Claim C7: the totalCount of the result equals exactly the value that
`parseSearchResponse` returned for page 1; from page 2 on, the loop never
changes the totalCount it carries, so later totals cannot affect the
result. -/
theorem search_totalCount_from_page1 {Body Rec : Type} (impl : RepoSearcher Body Rec)
    (fetch : String → Except String (Option Body)) (source query : String) (maxPages : Int)
    (url1 : String) (b : Body) (repos : List Rec) (tc1 : Int) (hmB : Bool)
    (hq : query ≠ "") (hmp : 1 ≤ maxPages)
    (hb1 : impl.buildSearchURL query 1 perPage = Except.ok url1)
    (hf1 : fetch url1 = Except.ok (some b))
    (hp1 : impl.parseSearchResponse b = Except.ok (repos, tc1, hmB)) :
    (∀ (fuel : Nat) (p : Int) (acc : List Rec) (tc : Int) (f : List Int)
        (res : SearchResult Rec), 2 ≤ p →
        (searchGo impl fetch source query fuel p acc tc f).result = Except.ok res →
        res.totalCount = tc)
    ∧ (∀ res : SearchResult Rec,
        (Search impl fetch source query maxPages).result = Except.ok res →
        res.totalCount = tc1) := by
  constructor
  · exact searchGo_tc_of_ok impl fetch source query
  · intro res hres
    unfold Search at hres
    rw [if_neg hq, if_neg (by omega)] at hres
    obtain ⟨m, hm⟩ : ∃ m, maxPages.toNat = m + 1 := ⟨maxPages.toNat - 1, by omega⟩
    rw [hm] at hres
    simp only [searchGo, hb1, hf1, hp1] at hres
    by_cases hstop : hmB = false ∨ repos.length = 0
    · rw [if_pos hstop] at hres
      simp at hres
      cases hres with
      | _ => simp_all
    · rw [if_neg hstop] at hres
      have h := searchGo_tc_of_ok impl fetch source query m _ _ _ _ res (by norm_num) hres
      simpa using h

/-- Claim C7 witness: a GitCode-style adapter reporting the unknown
sentinel -1 on page 1; the single-page result carries exactly that
value. -/
theorem search_totalCount_from_page1_witness :
    (⟨"S", "raft", (-1 : Int), [()]⟩ : SearchResult Unit).totalCount = -1 := by
  have h := search_totalCount_from_page1
    (⟨fun _ _ _ => Except.ok "u", fun _ => Except.ok ([()], -1, true)⟩ : RepoSearcher Unit Unit)
    (fun _ => Except.ok (some ())) "S" "raft" 1 "u" () [()] (-1) true
    (by decide) (by decide) rfl rfl rfl
  exact h.2 ⟨"S", "raft", -1, [()]⟩ rfl

/-- Claim C9 counterexample: with identical arguments (query raft, page 1,
perPage 50) but different values of the GITCODE_LANG environment variable,
the GitCode URL builder returns two different URLs, so it is not
deterministic in its arguments alone. -/
theorem gitcode_buildSearchURL_env_cex :
    gitCodeBuildSearchURL emptyEnv "raft" 1 50
      = Except.ok "https://api.gitcode.com/api/v5/search/repositories?page=1&per_page=50&q=raft"
    ∧ gitCodeBuildSearchURL langGoEnv "raft" 1 50
      = Except.ok
          "https://api.gitcode.com/api/v5/search/repositories?language=go&page=1&per_page=50&q=raft"
    ∧ ("https://api.gitcode.com/api/v5/search/repositories?page=1&per_page=50&q=raft" : String)
      ≠ "https://api.gitcode.com/api/v5/search/repositories?language=go&page=1&per_page=50&q=raft" := by
  refine ⟨rfl, rfl, by decide⟩

/-- Claim C9 (amended): the GitCode URL builder is deterministic given its
arguments together with the GITCODE_LANG environment value: two calls with
the same (query, page, perPage) and agreeing GITCODE_LANG return the same
URL, whatever else the environments contain. -/
theorem gitcode_buildSearchURL_deterministic_given_env (env1 env2 : String → String)
    (query : String) (page pp : Int)
    (h : env1 "GITCODE_LANG" = env2 "GITCODE_LANG") :
    gitCodeBuildSearchURL env1 query page pp = gitCodeBuildSearchURL env2 query page pp := by
  simp [gitCodeBuildSearchURL, h]

/-- Claim C9 witness: two environments that agree on GITCODE_LANG (both
unset) but differ elsewhere produce the same URL. -/
theorem gitcode_buildSearchURL_deterministic_given_env_witness :
    gitCodeBuildSearchURL emptyEnv "raft" 2 50 = gitCodeBuildSearchURL otherVarEnv "raft" 2 50 :=
  gitcode_buildSearchURL_deterministic_given_env emptyEnv otherVarEnv "raft" 2 50 (by decide)

/-- Claim C10: when page 1 is fetched but its parse fails, `Search` returns
success and the result carries totalCount 0 (the integer zero value), not
the documented -1 unknown sentinel, together with an empty item list. -/
theorem search_totalCount_zero_on_page1_parse_failure {Body Rec : Type}
    (impl : RepoSearcher Body Rec) (fetch : String → Except String (Option Body))
    (source query : String) (maxPages : Int) (url1 : String) (b : Body) (e : String)
    (hq : query ≠ "") (hmp : 1 ≤ maxPages)
    (hb1 : impl.buildSearchURL query 1 perPage = Except.ok url1)
    (hf1 : fetch url1 = Except.ok (some b))
    (hpe : impl.parseSearchResponse b = Except.error e) :
    (Search impl fetch source query maxPages).result = Except.ok ⟨source, query, 0, []⟩
    ∧ (∀ res : SearchResult Rec,
        (Search impl fetch source query maxPages).result = Except.ok res →
        res.totalCount = 0 ∧ res.totalCount ≠ -1 ∧ res.items = []) := by
  have h1 : Search impl fetch source query maxPages = ⟨Except.ok ⟨source, query, 0, []⟩, [1]⟩ := by
    unfold Search
    rw [if_neg hq, if_neg (by omega)]
    obtain ⟨m, hm⟩ : ∃ m, maxPages.toNat = m + 1 := ⟨maxPages.toNat - 1, by omega⟩
    rw [hm]
    simp [searchGo, hb1, hf1, hpe]
  refine ⟨by rw [h1], ?_⟩
  intro res hres
  rw [h1] at hres
  cases hres
  exact ⟨rfl, by simp, rfl⟩

/-- Claim C10 witness: a concrete page-1 parse failure yields a successful
result with totalCount 0 and no items. -/
theorem search_totalCount_zero_on_page1_parse_failure_witness :
    (Search (⟨fun _ _ _ => Except.ok "u", fun _ => Except.error "bad payload"⟩ :
        RepoSearcher Unit Unit)
      (fun _ => Except.ok (some ())) "GitCode" "raft" 4).result
      = Except.ok ⟨"GitCode", "raft", 0, []⟩
    ∧ ((⟨"GitCode", "raft", 0, []⟩ : SearchResult Unit).totalCount = 0
        ∧ (⟨"GitCode", "raft", 0, []⟩ : SearchResult Unit).totalCount ≠ -1
        ∧ (⟨"GitCode", "raft", 0, []⟩ : SearchResult Unit).items = []) := by
  have h := search_totalCount_zero_on_page1_parse_failure
    (⟨fun _ _ _ => Except.ok "u", fun _ => Except.error "bad payload"⟩ : RepoSearcher Unit Unit)
    (fun _ => Except.ok (some ())) "GitCode" "raft" 4 "u" () "bad payload"
    (by decide) (by decide) rfl rfl rfl
  exact ⟨h.1, h.2 _ h.1⟩
